import Mathlib

/-!
Shallow embedding of the per-user state logic of the transcription bot
(src/bot.py).  Per-user state is persisted as one JSON document per user
(table user_data); every operation of the bot is a load → mutate → save
round trip on that single record, so each helper of bot.py is embedded as
a pure transformation of the `UserData` record of the affected user.
String-encoded fields of the JSON document are embedded as tagged types:
the `mode` string is `"transcribe"` / `"cosmetic"` (a bare MODES key,
`Mode.builtin`) or `"custom_prompt:<idx>"` (`Mode.custom idx`), and the
`pending_action` object `\x7b"action": "awaiting_name"\x7d` or
`\x7b"action": "awaiting_prompt", "name": n\x7d` is `PendingAction`.
Indices are embedded as `Nat`: every index written by the code is
non-negative, and Python's `0 <= idx` half of the bounds check in
`delete_custom_prompt` is the `Nat` totality.
-/

namespace Transcribator

/-- MAX_CUSTOM_PROMPTS constant (src/bot.py line 19). -/
def MAX_CUSTOM_PROMPTS : Nat := 3

/-- One custom prompt, the JSON object `\x7b"name": ..., "prompt": ...\x7d`
appended by add_custom_prompt (src/bot.py line 143). -/
structure CustomPrompt where
  name : String
  prompt : String
deriving Repr, DecidableEq

/-- The user's mode string: a bare builtin MODES key such as "transcribe",
or the colon-encoded "custom_prompt:<idx>". -/
inductive Mode where
  | builtin (id : String)
  | custom (idx : Nat)
deriving Repr, DecidableEq

/-- The pending_action JSON object: `\x7b"action": "awaiting_name"\x7d` or
`\x7b"action": "awaiting_prompt", "name": <name>\x7d` (src/bot.py lines 394, 463). -/
inductive PendingAction where
  | awaiting_name
  | awaiting_prompt (name : String)
deriving Repr, DecidableEq

/-- The per-user JSON document stored in the user_data table.  A missing
key is `none` / `[]` (the defaults used by `data.get` in src/bot.py). -/
structure UserData where
  mode : Option Mode
  custom_prompts : List CustomPrompt
  pending_action : Option PendingAction
deriving Repr, DecidableEq

/-- Embeds get_user_mode (src/bot.py lines 112-115). -/
def get_user_mode (d : UserData) : Option Mode :=
  d.mode

/-- Embeds set_user_mode (src/bot.py lines 118-122): `data["mode"] = mode`. -/
def set_user_mode (d : UserData) (m : Mode) : UserData :=
  { d with mode := some m }

/-- Embeds clear_user_mode (src/bot.py lines 125-129): `data.pop("mode", None)`. -/
def clear_user_mode (d : UserData) : UserData :=
  { d with mode := none }

/-- Embeds get_custom_prompts (src/bot.py lines 132-135). -/
def get_custom_prompts (d : UserData) : List CustomPrompt :=
  d.custom_prompts

/-- Embeds add_custom_prompt (src/bot.py lines 138-145): appends
`\x7b"name": name, "prompt": prompt\x7d` unconditionally and returns
`len(data["custom_prompts"]) - 1`, the new last index.  There is no
capacity check in this function. -/
def add_custom_prompt (d : UserData) (name : String) (prompt : String) :
    UserData × Nat :=
  let prompts := d.custom_prompts ++ [⟨name, prompt⟩]
  ({ d with custom_prompts := prompts }, prompts.length - 1)

/-- Embeds delete_custom_prompt (src/bot.py lines 148-164):
`if 0 <= idx < len(prompts)` then `prompts.pop(idx)` (eraseIdx), then the
reindex block on the mode string — `old_idx == idx` drops the mode,
`old_idx > idx` rewrites it to `custom_prompt:old_idx - 1` — then save and
return True; out of bounds returns False with no save. -/
def delete_custom_prompt (d : UserData) (idx : Nat) : UserData × Bool :=
  if idx < d.custom_prompts.length then
    let prompts := d.custom_prompts.eraseIdx idx
    let mode : Option Mode :=
      match d.mode with
      | some (Mode.custom old_idx) =>
        if old_idx = idx then none
        else if old_idx > idx then some (Mode.custom (old_idx - 1))
        else some (Mode.custom old_idx)
      | m => m
    ({ mode := mode, custom_prompts := prompts,
       pending_action := d.pending_action }, true)
  else
    (d, false)

/-- Embeds get_pending_action (src/bot.py lines 167-170). -/
def get_pending_action (d : UserData) : Option PendingAction :=
  d.pending_action

/-- Embeds set_pending_action (src/bot.py lines 173-177). -/
def set_pending_action (d : UserData) (a : PendingAction) : UserData :=
  { d with pending_action := some a }

/-- Embeds clear_pending_action (src/bot.py lines 180-184):
`data.pop("pending_action", None)`. -/
def clear_pending_action (d : UserData) : UserData :=
  { d with pending_action := none }

/-- GLOBAL_INSTRUCTION (src/bot.py lines 83-86), prepended to every mode
prompt when the system prompt for the rewriting call is assembled. -/
def GLOBAL_INSTRUCTION : String :=
  "\nВАЖНО: Это транскрипция голосового сообщения. Твоя задача — сделать так, чтобы текст выглядел как написанный от руки, а не как типичная транскрипция. \nСохрани эмоции, интонацию и живость речи автора. Текст должен быть приятным для чтения, но при этом передавать характер и настроение говорящего.\n"

/-- The "prompt" entries of the MODES dict (src/bot.py lines 89-107):
the builtin keys "transcribe" and "cosmetic" carry a prompt, the
"custom_prompt" entry has no "prompt" key and any other key is absent
from the dict, so the lookup MODES[mode]["prompt"] is `none` there. -/
def MODES_prompt (mode_id : String) : Option String :=
  if mode_id = "transcribe" then
    some "Исправь грамматические и пунктуационные ошибки. Сохрани оригинальную структуру, эмоции и живость речи. Текст должен выглядеть как написанный от руки. Верни только исправленный текст."
  else if mode_id = "cosmetic" then
    some "Отредактируй текст: убери междометия и слова-паразиты, раздели на абзацы, исправь грамматику. Сохрани эмоции, интонацию и характер автора — текст должен звучать живо, как написанный от руки. Тон — конструктивный. Не пиши слишком формально, не создавай лишней дистанции с читателем, но обходись без панибратства. Чаще используй глаголы, опирайся на «инфостиль» Максима Ильяхова. Верни только отредактированный текст."
  else none

/-- The generic fallback prompt of process_with_llm (src/bot.py line 211),
used when a custom mode index is out of bounds at resolution time. -/
def fallback_user_prompt : String := "Исправь текст."

/-- Embeds the custom-prompt resolution of process_with_llm
(src/bot.py lines 206-211): `if idx < len(prompts)` take
`prompts[idx]["prompt"]`, else the fallback `"Исправь текст."`. -/
def process_with_llm_user_prompt (prompts : List CustomPrompt) (idx : Nat) :
    String :=
  if h : idx < prompts.length then (prompts.get ⟨idx, h⟩).prompt
  else fallback_user_prompt

/-- Embeds the system-prompt assembly of process_with_llm
(src/bot.py lines 202-214).  A custom mode always resolves
(`GLOBAL_INSTRUCTION + "\n" + user_prompt`); a builtin mode resolves via
the MODES dict, where a missing "prompt" key would raise (`none`). -/
def process_with_llm_system_prompt (d : UserData) (m : Mode) : Option String :=
  match m with
  | Mode.custom idx =>
    some (GLOBAL_INSTRUCTION ++ "\n" ++
      process_with_llm_user_prompt d.custom_prompts idx)
  | Mode.builtin id =>
    (MODES_prompt id).map (fun p => GLOBAL_INSTRUCTION ++ "\n" ++ p)

/-- Embeds Python str.strip() as used by handle_text_input
(src/bot.py line 459): drop whitespace characters from both ends of the
code-point sequence of the string. -/
def py_strip (s : String) : String :=
  ⟨(((s.data.dropWhile Char.isWhitespace).reverse.dropWhile
      Char.isWhitespace).reverse)⟩

/-- Embeds the state effect of the /start handler (src/bot.py
lines 283-300): clear_user_mode then clear_pending_action. -/
def start_command (d : UserData) : UserData :=
  clear_pending_action (clear_user_mode d)

/-- Embeds the state effect of change_mode, the "Изменить режим" button
handler (src/bot.py lines 303-312): clear_pending_action, then show the
mode-selection keyboard (no further state change). -/
def change_mode (d : UserData) : UserData :=
  clear_pending_action d

/-- Embeds the state effect of the `select:<builtin>` branch of
callback_handler (src/bot.py lines 343-359): set_user_mode to the chosen
builtin mode id; nothing else of the record is touched. -/
def callback_select_builtin (d : UserData) (new_mode : String) : UserData :=
  set_user_mode d (Mode.builtin new_mode)

/-- Embeds the state effect of the `use_custom:<idx>` branch of
callback_handler (src/bot.py lines 361-381): `if idx < len(prompts)` then
set_user_mode to `custom_prompt:idx`, else only an error message is shown
and the record is untouched. -/
def callback_use_custom (d : UserData) (idx : Nat) : UserData :=
  if idx < d.custom_prompts.length then set_user_mode d (Mode.custom idx)
  else d

/-- Embeds the state effect of the `new_custom` branch of callback_handler
(src/bot.py lines 383-398): `if len(prompts) >= MAX_CUSTOM_PROMPTS` report
the capacity error and return (no state change, `false`); otherwise
set_pending_action to awaiting_name (creation flow started, `true`). -/
def callback_new_custom (d : UserData) : UserData × Bool :=
  if d.custom_prompts.length ≥ MAX_CUSTOM_PROMPTS then (d, false)
  else (set_pending_action d PendingAction.awaiting_name, true)

/-- Embeds handle_text_input (src/bot.py lines 451-489).  No pending
action: the message is ignored.  `text = update.message.text.strip()` is
embedded as `py_strip`, the executable embedding of Python str.strip.
awaiting_name: store `\x7b"action": "awaiting_prompt", "name": text\x7d`.
awaiting_prompt: add_custom_prompt with the stored name and the stripped
text, set_user_mode to the returned index, clear_pending_action. -/
def handle_text_input (d : UserData) (raw : String) : UserData :=
  match d.pending_action with
  | none => d
  | some PendingAction.awaiting_name =>
    set_pending_action d (PendingAction.awaiting_prompt (py_strip raw))
  | some (PendingAction.awaiting_prompt name) =>
    let r := add_custom_prompt d name (py_strip raw)
    clear_pending_action (set_user_mode r.1 (Mode.custom r.2))

/-- Observable external effects of handle_voice, in order. -/
inductive VoiceEffect where
  | replyModeSelection
  | callTranscription
  | callRewriting
  | deliverResult
deriving Repr, DecidableEq

/-- Embeds the effect trace of handle_voice (src/bot.py lines 509-556):
when get_user_mode is None, only the redirect message with the
mode-selection keyboard is sent and the handler returns before any
external call; otherwise the voice flow runs transcribe_audio, then
process_with_llm, then delivers the result. -/
def handle_voice (d : UserData) : List VoiceEffect :=
  match get_user_mode d with
  | none => [VoiceEffect.replyModeSelection]
  | some _ =>
    [VoiceEffect.callTranscription, VoiceEffect.callRewriting,
     VoiceEffect.deliverResult]

/-- MAX_LENGTH constant of send_long_message (src/bot.py line 494). -/
def MAX_LENGTH : Nat := 4096

/-- Embeds the slicing loop of send_long_message (src/bot.py lines
501-506): `for i in range(0, len(text), maxLength): text[i:i+maxLength]`.
Python strings are sequences of code points, embedded as `List Char`.
A zero step would raise in Python (unreachable: the source always passes
MAX_LENGTH = 4096); here it yields no chunks. -/
def pyChunks (maxLength : Nat) (text : List Char) : List (List Char) :=
  if maxLength = 0 ∨ text = [] then []
  else text.take maxLength :: pyChunks maxLength (text.drop maxLength)
termination_by text.length
decreasing_by
  rename_i h
  rw [not_or] at h
  have h1 : 0 < maxLength := Nat.pos_of_ne_zero h.1
  have h2 : 0 < text.length := List.length_pos.mpr h.2
  rw [List.length_drop]
  omega

/-- Payloads sent by send_long_message (src/bot.py lines 492-506),
generalized in the bound: `if len(text) <= maxLength` a single reply with
the whole text, else one reply per slice of the loop.  The source instance
is `send_long_message = send_payloads MAX_LENGTH`. -/
def send_payloads (maxLength : Nat) (text : List Char) : List (List Char) :=
  if text.length ≤ maxLength then [text]
  else pyChunks maxLength text

/-- Embeds send_long_message (src/bot.py lines 492-506) at the source's
constant MAX_LENGTH = 4096: the list of message payloads sent, in order. -/
def send_long_message (text : List Char) : List (List Char) :=
  send_payloads MAX_LENGTH text

/-! Helper lemmas about the chunking loop. -/

theorem pyChunks_flatten (maxLength : Nat) (hpos : 0 < maxLength) :
    ∀ text : List Char, (pyChunks maxLength text).flatten = text := by
  intro text
  generalize hl : text.length = n
  induction n using Nat.strong_induction_on generalizing text with
  | _ n ih =>
    rw [pyChunks]
    by_cases h : maxLength = 0 ∨ text = []
    · rcases h with h | h
      · omega
      · simp [h]
    · rw [if_neg h]
      rw [not_or] at h
      have h2 : 0 < text.length := List.length_pos.mpr h.2
      rw [List.flatten_cons,
        ih ((text.drop maxLength).length) (by rw [List.length_drop]; omega)
          _ rfl]
      exact List.take_append_drop maxLength text

theorem pyChunks_length_le (maxLength : Nat) :
    ∀ text : List Char, ∀ c ∈ pyChunks maxLength text,
      c.length ≤ maxLength := by
  intro text
  generalize hl : text.length = n
  induction n using Nat.strong_induction_on generalizing text with
  | _ n ih =>
    intro c hc
    rw [pyChunks] at hc
    by_cases h : maxLength = 0 ∨ text = []
    · simp [h] at hc
    · rw [if_neg h] at hc
      rw [not_or] at h
      have h2 : 0 < text.length := List.length_pos.mpr h.2
      have h1 : 0 < maxLength := Nat.pos_of_ne_zero h.1
      rcases List.mem_cons.mp hc with hc | hc
      · subst hc
        exact le_trans (List.length_take_le _ _) (le_refl _)
      · exact ih ((text.drop maxLength).length)
          (by rw [List.length_drop]; omega) _ rfl c hc

theorem pyChunks_ne_nil (maxLength : Nat) :
    ∀ text : List Char, ∀ c ∈ pyChunks maxLength text, c ≠ [] := by
  intro text
  generalize hl : text.length = n
  induction n using Nat.strong_induction_on generalizing text with
  | _ n ih =>
    intro c hc
    rw [pyChunks] at hc
    by_cases h : maxLength = 0 ∨ text = []
    · simp [h] at hc
    · rw [if_neg h] at hc
      rw [not_or] at h
      have h2 : 0 < text.length := List.length_pos.mpr h.2
      have h1 : 0 < maxLength := Nat.pos_of_ne_zero h.1
      rcases List.mem_cons.mp hc with hc | hc
      · subst hc
        rw [Ne, List.take_eq_nil_iff]
        push_neg
        exact ⟨h.1, h.2⟩
      · exact ih ((text.drop maxLength).length)
          (by rw [List.length_drop]; omega) _ rfl c hc

/-! Claim theorems. -/

/-- C1, counterexample: on a record already holding MAX_CUSTOM_PROMPTS = 3
custom prompts, add_custom_prompt does not fail and does not leave the
sequence unchanged — it appends a fourth prompt and returns index 3. -/
theorem add_custom_prompt_at_capacity_cex :
    (add_custom_prompt
      ⟨none, [⟨"a", "pa"⟩, ⟨"b", "pb"⟩, ⟨"c", "pc"⟩], none⟩
      "d" "pd").1.custom_prompts
      = [⟨"a", "pa"⟩, ⟨"b", "pb"⟩, ⟨"c", "pc"⟩, ⟨"d", "pd"⟩] ∧
    (add_custom_prompt
      ⟨none, [⟨"a", "pa"⟩, ⟨"b", "pb"⟩, ⟨"c", "pc"⟩], none⟩
      "d" "pd").2 = 3 :=
  ⟨rfl, rfl⟩

/-- C1, amended: add_custom_prompt itself performs no capacity check — it
appends unconditionally and returns the new last index (the old length);
the capacity guard lives in the new_custom callback branch, which at
length ≥ MAX_CUSTOM_PROMPTS reports a capacity error and leaves the
record unchanged, and only below capacity starts the creation flow. -/
theorem add_custom_prompt_and_capacity_guard (d : UserData)
    (name prompt : String) :
    (add_custom_prompt d name prompt).1.custom_prompts
      = d.custom_prompts ++ [⟨name, prompt⟩] ∧
    (add_custom_prompt d name prompt).2 = d.custom_prompts.length ∧
    (MAX_CUSTOM_PROMPTS ≤ d.custom_prompts.length →
      callback_new_custom d = (d, false)) ∧
    (d.custom_prompts.length < MAX_CUSTOM_PROMPTS →
      callback_new_custom d
        = (set_pending_action d PendingAction.awaiting_name, true)) := by
  refine ⟨rfl, by simp [add_custom_prompt], ?_, ?_⟩
  · intro h
    simp [callback_new_custom, h]
  · intro h
    simp [callback_new_custom, Nat.not_le.mpr h]

/-- C1, witness for the amended theorem at concrete inputs: a record with
three prompts is at capacity, so callback_new_custom refuses; a record
with no prompts is below capacity, so the creation flow starts. -/
theorem add_custom_prompt_and_capacity_guard_witness :
    callback_new_custom
        ⟨none, [⟨"a", "pa"⟩, ⟨"b", "pb"⟩, ⟨"c", "pc"⟩], none⟩
      = (⟨none, [⟨"a", "pa"⟩, ⟨"b", "pb"⟩, ⟨"c", "pc"⟩], none⟩, false) ∧
    callback_new_custom ⟨none, [], none⟩
      = (set_pending_action ⟨none, [], none⟩ PendingAction.awaiting_name,
          true) :=
  ⟨(add_custom_prompt_and_capacity_guard
      ⟨none, [⟨"a", "pa"⟩, ⟨"b", "pb"⟩, ⟨"c", "pc"⟩], none⟩
      "x" "px").2.2.1 (by decide),
   (add_custom_prompt_and_capacity_guard ⟨none, [], none⟩
      "x" "px").2.2.2 (by decide)⟩

/-- C2, counterexample: selecting the builtin mode "transcribe" while an
AwaitingName capture is in progress does not clear the pending action — it
is still AwaitingName afterwards, not Idle. -/
theorem select_builtin_keeps_pending_cex :
    (callback_select_builtin
        ⟨none, [], some PendingAction.awaiting_name⟩
        "transcribe").pending_action ≠ none ∧
    (callback_select_builtin
        ⟨none, [], some PendingAction.awaiting_name⟩
        "transcribe").pending_action
      = some PendingAction.awaiting_name :=
  ⟨by decide, rfl⟩

/-- C2, amended: only the explicit change-mode button (and /start) clears
pendingAction; selecting a builtin mode or selecting a custom prompt by
index leaves pendingAction exactly as it was. -/
theorem mode_switch_pending_action (d : UserData) (m : String) (i : Nat) :
    (change_mode d).pending_action = none ∧
    (start_command d).pending_action = none ∧
    (callback_select_builtin d m).pending_action = d.pending_action ∧
    (callback_use_custom d i).pending_action = d.pending_action := by
  refine ⟨rfl, rfl, rfl, ?_⟩
  unfold callback_use_custom
  by_cases h : i < d.custom_prompts.length <;> simp [h, set_user_mode]

/-- C3: deleting a valid index returns true, removes exactly the element
at that position (the remaining elements keep their relative order and the
length drops by one), and repairs the mode by the reindex law:
Custom(i) becomes None, Custom(j) with j > i becomes Custom(j-1),
Custom(j) with j < i is unchanged. -/
theorem delete_custom_prompt_valid (d : UserData) (i : Nat)
    (h : i < d.custom_prompts.length) :
    (delete_custom_prompt d i).2 = true ∧
    (delete_custom_prompt d i).1.custom_prompts
      = d.custom_prompts.take i ++ d.custom_prompts.drop (i + 1) ∧
    (delete_custom_prompt d i).1.custom_prompts.length + 1
      = d.custom_prompts.length ∧
    (d.mode = some (Mode.custom i) →
      (delete_custom_prompt d i).1.mode = none) ∧
    (∀ j, d.mode = some (Mode.custom j) → i < j →
      (delete_custom_prompt d i).1.mode = some (Mode.custom (j - 1))) ∧
    (∀ j, d.mode = some (Mode.custom j) → j < i →
      (delete_custom_prompt d i).1.mode = some (Mode.custom j)) := by
  unfold delete_custom_prompt
  rw [if_pos h]
  refine ⟨rfl, List.eraseIdx_eq_take_drop_succ .., List.length_eraseIdx_add_one h, ?_, ?_, ?_⟩
  · intro hm
    rw [hm]
    simp
  · intro j hm hij
    rw [hm]
    simp [Nat.ne_of_gt hij, hij]
  · intro j hm hji
    rw [hm]
    simp [Nat.ne_of_lt hji, Nat.not_lt.mpr (Nat.le_of_lt hji), Nat.lt_irrefl]

/-- C3, witness: deleting index 1 from a three-prompt record whose mode is
Custom(2) succeeds, keeps the first and third prompts in order, and shifts
the mode down to Custom(1). -/
theorem delete_custom_prompt_valid_witness :
    (delete_custom_prompt
        ⟨some (Mode.custom 2), [⟨"a", "pa"⟩, ⟨"b", "pb"⟩, ⟨"c", "pc"⟩],
         none⟩ 1).2 = true ∧
    (delete_custom_prompt
        ⟨some (Mode.custom 2), [⟨"a", "pa"⟩, ⟨"b", "pb"⟩, ⟨"c", "pc"⟩],
         none⟩ 1).1.custom_prompts
      = [⟨"a", "pa"⟩, ⟨"c", "pc"⟩] ∧
    (delete_custom_prompt
        ⟨some (Mode.custom 2), [⟨"a", "pa"⟩, ⟨"b", "pb"⟩, ⟨"c", "pc"⟩],
         none⟩ 1).1.mode = some (Mode.custom 1) := by
  have h := delete_custom_prompt_valid
    ⟨some (Mode.custom 2), [⟨"a", "pa"⟩, ⟨"b", "pb"⟩, ⟨"c", "pc"⟩], none⟩
    1 (by decide)
  exact ⟨h.1, h.2.1, h.2.2.2.2.1 2 rfl (by decide)⟩

/-- C7: deleting an out-of-bounds index returns false and performs no
mutation at all — the result record is exactly the input record (sequence,
mode and pending action untouched), and the operation is total (no
exception). -/
theorem delete_custom_prompt_out_of_bounds (d : UserData) (i : Nat)
    (h : d.custom_prompts.length ≤ i) :
    delete_custom_prompt d i = (d, false) := by
  unfold delete_custom_prompt
  rw [if_neg (Nat.not_lt.mpr h)]

/-- C7, witness: deleting index 5 from a one-prompt record is a no-op
returning false. -/
theorem delete_custom_prompt_out_of_bounds_witness :
    delete_custom_prompt
        ⟨some (Mode.custom 0), [⟨"a", "pa"⟩],
         some PendingAction.awaiting_name⟩ 5
      = (⟨some (Mode.custom 0), [⟨"a", "pa"⟩],
          some PendingAction.awaiting_name⟩, false) :=
  delete_custom_prompt_out_of_bounds
    ⟨some (Mode.custom 0), [⟨"a", "pa"⟩], some PendingAction.awaiting_name⟩
    5 (by decide)

/-- C4: for every text and every positive maxLength, the payload sequence
of the long-message path is an ordered list of chunks whose in-order
concatenation reproduces the input text exactly, with every chunk of
length at most maxLength; send_long_message is its instance at the
source's constant MAX_LENGTH. -/
theorem send_payloads_chunking_law (maxLength : Nat) (text : List Char)
    (hpos : 0 < maxLength) :
    (send_payloads maxLength text).flatten = text ∧
    (∀ c ∈ send_payloads maxLength text, c.length ≤ maxLength) ∧
    send_long_message text = send_payloads MAX_LENGTH text := by
  unfold send_payloads
  by_cases h : text.length ≤ maxLength
  · rw [if_pos h]
    refine ⟨by simp, ?_, rfl⟩
    intro c hc
    rw [List.mem_singleton] at hc
    rw [hc]
    exact h
  · rw [if_neg h]
    exact ⟨pyChunks_flatten maxLength hpos text,
      fun c hc => pyChunks_length_le maxLength text c hc, rfl⟩

/-- C4, witness: with maxLength = 2 the text "abc" is delivered as chunks
that concatenate back to "abc", and the first chunk "ab" respects the
bound. -/
theorem send_payloads_chunking_law_witness :
    0 < 2 ∧
    (send_payloads 2 ['a', 'b', 'c']).flatten = ['a', 'b', 'c'] ∧
    (['a', 'b'] : List Char).length ≤ 2 :=
  ⟨by decide,
   (send_payloads_chunking_law 2 ['a', 'b', 'c'] (by decide)).1,
   (send_payloads_chunking_law 2 ['a', 'b', 'c'] (by decide)).2.1
     ['a', 'b'] (by simp [send_payloads, pyChunks])⟩

/-- C5: while AwaitingName, a free-text message s1 moves the pending
action to AwaitingPromptBody carrying trim(s1) and touches nothing else;
while AwaitingPromptBody, a further message s2 appends the prompt
(trim(s1), trim(s2)) at the end, sets the mode to Custom of the appended
position, and clears the pending action.  The statement holds for all
strings, including ones that trim to empty: no validation beyond trimming
is applied. -/
theorem pending_action_roundtrip (d : UserData) (s1 s2 : String)
    (h : d.pending_action = some PendingAction.awaiting_name) :
    (handle_text_input d s1).pending_action
      = some (PendingAction.awaiting_prompt (py_strip s1)) ∧
    (handle_text_input d s1).mode = d.mode ∧
    (handle_text_input d s1).custom_prompts = d.custom_prompts ∧
    (handle_text_input (handle_text_input d s1) s2).custom_prompts
      = d.custom_prompts ++ [⟨py_strip s1, py_strip s2⟩] ∧
    (handle_text_input (handle_text_input d s1) s2).mode
      = some (Mode.custom d.custom_prompts.length) ∧
    (handle_text_input (handle_text_input d s1) s2).pending_action
      = none := by
  unfold handle_text_input
  rw [h]
  simp [set_pending_action, add_custom_prompt, set_user_mode,
    clear_pending_action]

/-- C5, witness: from AwaitingName, the texts " Foo " and " Bar " append
the prompt ("Foo", "Bar"), select it as Custom(0), and leave the protocol
Idle. -/
theorem pending_action_roundtrip_witness :
    (handle_text_input
        ⟨none, [], some PendingAction.awaiting_name⟩
        " Foo ").pending_action
      = some (PendingAction.awaiting_prompt "Foo") ∧
    (handle_text_input
        (handle_text_input ⟨none, [], some PendingAction.awaiting_name⟩
          " Foo ") " Bar ").custom_prompts = [⟨"Foo", "Bar"⟩] ∧
    (handle_text_input
        (handle_text_input ⟨none, [], some PendingAction.awaiting_name⟩
          " Foo ") " Bar ").mode = some (Mode.custom 0) ∧
    (handle_text_input
        (handle_text_input ⟨none, [], some PendingAction.awaiting_name⟩
          " Foo ") " Bar ").pending_action = none := by
  have h := pending_action_roundtrip
    ⟨none, [], some PendingAction.awaiting_name⟩ " Foo " " Bar " rfl
  have ht1 : py_strip " Foo " = "Foo" := by decide
  have ht2 : py_strip " Bar " = "Bar" := by decide
  rw [ht1] at h
  rw [ht2] at h
  exact ⟨h.1, h.2.2.2.1, h.2.2.2.2.1, h.2.2.2.2.2⟩

/-- C6: while the mode is unset, a voice message produces only the
redirect to mode selection — neither the transcription collaborator nor
the rewriting collaborator is invoked — and conversely those collaborators
are ever invoked only when a mode is set. -/
theorem handle_voice_guard (d : UserData) :
    (get_user_mode d = none →
      VoiceEffect.callTranscription ∉ handle_voice d ∧
      VoiceEffect.callRewriting ∉ handle_voice d ∧
      VoiceEffect.replyModeSelection ∈ handle_voice d) ∧
    (VoiceEffect.callTranscription ∈ handle_voice d →
      get_user_mode d ≠ none) ∧
    (VoiceEffect.callRewriting ∈ handle_voice d →
      get_user_mode d ≠ none) := by
  cases hm : get_user_mode d <;> simp [handle_voice, hm]

/-- C6, witness: on a fresh record with no mode, a voice message yields no
transcription call, no rewriting call, and only the redirect. -/
theorem handle_voice_guard_witness :
    VoiceEffect.callTranscription ∉ handle_voice ⟨none, [], none⟩ ∧
    VoiceEffect.callRewriting ∉ handle_voice ⟨none, [], none⟩ ∧
    VoiceEffect.replyModeSelection ∈ handle_voice ⟨none, [], none⟩ :=
  (handle_voice_guard ⟨none, [], none⟩).1 rfl

/-- C8: resolving a Custom(i) mode yields the stored prompt instruction
when i is in bounds of the current sequence and the fixed generic
fallback "Исправь текст." when it is not; in either case the assembled
system prompt exists (resolution never fails hard for a custom mode). -/
theorem custom_mode_resolution (d : UserData) (i : Nat) :
    (∀ h : i < d.custom_prompts.length,
      process_with_llm_user_prompt d.custom_prompts i
        = (d.custom_prompts.get ⟨i, h⟩).prompt) ∧
    (d.custom_prompts.length ≤ i →
      process_with_llm_user_prompt d.custom_prompts i
        = fallback_user_prompt) ∧
    process_with_llm_system_prompt d (Mode.custom i)
      = some (GLOBAL_INSTRUCTION ++ "\n" ++
          process_with_llm_user_prompt d.custom_prompts i) := by
  refine ⟨?_, ?_, rfl⟩
  · intro h
    unfold process_with_llm_user_prompt
    rw [dif_pos h]
  · intro h
    unfold process_with_llm_user_prompt
    rw [dif_neg (by omega)]

/-- C8, witness: on a one-prompt record, Custom(0) resolves to the stored
instruction and Custom(5) resolves to the generic fallback. -/
theorem custom_mode_resolution_witness :
    process_with_llm_user_prompt [⟨"n", "edit hard"⟩] 0 = "edit hard" ∧
    process_with_llm_user_prompt [⟨"n", "edit hard"⟩] 5
      = fallback_user_prompt :=
  ⟨(custom_mode_resolution ⟨none, [⟨"n", "edit hard"⟩], none⟩ 0).1
      (by decide),
   (custom_mode_resolution ⟨none, [⟨"n", "edit hard"⟩], none⟩ 5).2.1
      (by decide)⟩

/-- C9, frame property: each single-field helper changes only its named
field — set_user_mode and clear_user_mode leave the prompts and the
pending action untouched, set_pending_action and clear_pending_action
leave the prompts and the mode untouched — and delete_custom_prompt on a
valid index leaves the pending action untouched and leaves the mode
untouched whenever it is absent or a builtin reference. -/
theorem state_helpers_frame (d : UserData) (m : Mode) (a : PendingAction)
    (i : Nat) :
    ((set_user_mode d m).custom_prompts = d.custom_prompts ∧
      (set_user_mode d m).pending_action = d.pending_action) ∧
    ((clear_user_mode d).custom_prompts = d.custom_prompts ∧
      (clear_user_mode d).pending_action = d.pending_action) ∧
    ((set_pending_action d a).custom_prompts = d.custom_prompts ∧
      (set_pending_action d a).mode = d.mode) ∧
    ((clear_pending_action d).custom_prompts = d.custom_prompts ∧
      (clear_pending_action d).mode = d.mode) ∧
    (i < d.custom_prompts.length →
      (delete_custom_prompt d i).1.pending_action = d.pending_action) ∧
    (i < d.custom_prompts.length → d.mode = none →
      (delete_custom_prompt d i).1.mode = none) ∧
    (∀ id, i < d.custom_prompts.length →
      d.mode = some (Mode.builtin id) →
      (delete_custom_prompt d i).1.mode = some (Mode.builtin id)) := by
  refine ⟨⟨rfl, rfl⟩, ⟨rfl, rfl⟩, ⟨rfl, rfl⟩, ⟨rfl, rfl⟩, ?_, ?_, ?_⟩
  · intro h
    unfold delete_custom_prompt
    rw [if_pos h]
  · intro h hm
    unfold delete_custom_prompt
    rw [if_pos h, hm]
  · intro id h hm
    unfold delete_custom_prompt
    rw [if_pos h, hm]

/-- C9, witness: on a record with one prompt, a builtin mode and an
in-progress capture, the helpers touch only their own field and deleting
index 0 keeps both the builtin mode and the pending action. -/
theorem state_helpers_frame_witness :
    (set_user_mode
        ⟨some (Mode.builtin "transcribe"), [⟨"a", "pa"⟩],
         some PendingAction.awaiting_name⟩ (Mode.custom 0)).pending_action
      = some PendingAction.awaiting_name ∧
    (delete_custom_prompt
        ⟨some (Mode.builtin "transcribe"), [⟨"a", "pa"⟩],
         some PendingAction.awaiting_name⟩ 0).1.pending_action
      = some PendingAction.awaiting_name ∧
    (delete_custom_prompt
        ⟨some (Mode.builtin "transcribe"), [⟨"a", "pa"⟩],
         some PendingAction.awaiting_name⟩ 0).1.mode
      = some (Mode.builtin "transcribe") := by
  have h := state_helpers_frame
    ⟨some (Mode.builtin "transcribe"), [⟨"a", "pa"⟩],
     some PendingAction.awaiting_name⟩ (Mode.custom 0)
    PendingAction.awaiting_name 0
  exact ⟨h.1.2, h.2.2.2.2.1 (by decide),
    h.2.2.2.2.2.2 "transcribe" (by decide) rfl⟩

/-- C10: the empty text is delivered as exactly one message whose payload
is the empty string, and for every non-empty text every payload sent by
send_long_message is non-empty. -/
theorem send_long_message_edge_cases :
    send_long_message [] = [[]] ∧
    ∀ text : List Char, text ≠ [] →
      [] ∉ send_long_message text := by
  constructor
  · rfl
  · intro text ht hmem
    unfold send_long_message send_payloads at hmem
    by_cases h : text.length ≤ MAX_LENGTH
    · rw [if_pos h] at hmem
      rw [List.mem_singleton] at hmem
      exact ht hmem.symm
    · rw [if_neg h] at hmem
      exact pyChunks_ne_nil MAX_LENGTH text [] hmem rfl

/-- C10, witness: the empty text yields the single empty payload, and the
one-character text "a" never yields an empty payload. -/
theorem send_long_message_edge_cases_witness :
    send_long_message [] = [[]] ∧
    [] ∉ send_long_message ['a'] :=
  ⟨send_long_message_edge_cases.1,
   send_long_message_edge_cases.2 ['a'] (by decide)⟩

end Transcribator
